import Mathlib

/- Verification of the set-command core of the `tredis` Redis client
(`tredis/sets.py`): command-vector construction, dual-mode dispatch
(direct vs pipeline), and per-command response normalization. -/

namespace Tredis

/-- Byte strings (Python `bytes`) as lists of byte values. -/
abbrev Bytes := List Nat

/-- Byte string of an ASCII string literal, used for the protocol token
constants such as `b'SADD'`. -/
def str2bytes (s : String) : Bytes := s.data.map Char.toNat

/-- The token `b'SADD'`. -/
def bSADD : Bytes := str2bytes "SADD"

/-- The token `b'SCARD'`. -/
def bSCARD : Bytes := str2bytes "SCARD"

/-- The token `b'SDIFF'`. -/
def bSDIFF : Bytes := str2bytes "SDIFF"

/-- The token `b'SDIFFSTORE'`. -/
def bSDIFFSTORE : Bytes := str2bytes "SDIFFSTORE"

/-- The token `b'SINTER'`. -/
def bSINTER : Bytes := str2bytes "SINTER"

/-- The token `b'SINTERSTORE'`. -/
def bSINTERSTORE : Bytes := str2bytes "SINTERSTORE"

/-- The token `b'SISMEMBER'`. -/
def bSISMEMBER : Bytes := str2bytes "SISMEMBER"

/-- The token `b'SMEMBERS'`. -/
def bSMEMBERS : Bytes := str2bytes "SMEMBERS"

/-- The token `b'SMOVE'`. -/
def bSMOVE : Bytes := str2bytes "SMOVE"

/-- The token `b'SPOP'`. -/
def bSPOP : Bytes := str2bytes "SPOP"

/-- The token `b'SRANDMEMBER'`. -/
def bSRANDMEMBER : Bytes := str2bytes "SRANDMEMBER"

/-- The token `b'SREM'`. -/
def bSREM : Bytes := str2bytes "SREM"

/-- The token `b'SSCAN'`. -/
def bSSCAN : Bytes := str2bytes "SSCAN"

/-- The token `b'SUNION'`. -/
def bSUNION : Bytes := str2bytes "SUNION"

/-- The token `b'SUNIONSTORE'`. -/
def bSUNIONSTORE : Bytes := str2bytes "SUNIONSTORE"

/-- The token `b'MATCH'`. -/
def bMATCH : Bytes := str2bytes "MATCH"

/-- The token `b'COUNT'`. -/
def bCOUNT : Bytes := str2bytes "COUNT"

/-- Decimal digit bytes of `n`, most significant first, by structural fuel
recursion (any `fuel ≥ n` gives the digits of `n`; `[]` for `n = 0`). -/
def natDecAux : Nat → Nat → Bytes
  | 0, _ => []
  | fuel + 1, n => if n = 0 then [] else natDecAux fuel (n / 10) ++ [n % 10 + 48]

/-- ASCII decimal representation of a natural number, the bytes of
`ascii(n).encode('ascii')` for a non-negative Python int `n`. -/
def natDecBytes (n : Nat) : Bytes := if n = 0 then [48] else natDecAux n n

/-- ASCII decimal representation of a Python int, the bytes of
`ascii(i).encode('ascii')`: a minus-sign byte 45 precedes the digits of a
negative value. -/
def intDecBytes (i : Int) : Bytes :=
  if i < 0 then 45 :: natDecBytes i.natAbs else natDecBytes i.toNat

/-- Value of an ASCII decimal digit byte, `Option.none` for a non-digit. -/
def digitVal (c : Nat) : Option Nat :=
  if 48 ≤ c ∧ c ≤ 57 then some (c - 48) else Option.none

/-- Left-to-right accumulation of decimal digit bytes onto `acc`; fails on
the first non-digit byte. -/
def parseDigitsAux : Bytes → Nat → Option Nat
  | [], acc => some acc
  | c :: cs, acc =>
    match digitVal c with
    | some d => parseDigitsAux cs (acc * 10 + d)
    | Option.none => Option.none

/-- Python `int()` applied to a byte string, restricted to optionally
minus-signed decimal literals; `Option.none` models the `ValueError` raised
on the empty string, a lone sign, or a non-digit byte. -/
def pyIntBytes (s : Bytes) : Option Int :=
  match s with
  | [] => Option.none
  | c :: cs =>
    if c = 45 then
      match cs with
      | [] => Option.none
      | _ :: _ => (parseDigitsAux cs 0).map fun n => -(n : Int)
    else (parseDigitsAux (c :: cs) 0).map fun n => (n : Int)

/-- Python values appearing as raw protocol replies and normalized results:
`None`, ints, bools, byte strings, and lists (also standing for tuples). -/
inductive PyVal where
  | nil
  | int (n : Int)
  | bool (b : Bool)
  | bytes (s : Bytes)
  | list (xs : List PyVal)

/-- Python `==` between a reply value and an int, including the bool quirk
(`True == 1`, `False == 0`); values of other types compare unequal. -/
def pyEqInt : PyVal → Int → Bool
  | PyVal.int m, n => m == n
  | PyVal.bool b, n => (if b then (1 : Int) else 0) == n
  | _, _ => false

/-- Python `int(x)` on a reply value. -/
def pyToInt : PyVal → Option Int
  | PyVal.int n => some n
  | PyVal.bool b => some (if b then 1 else 0)
  | PyVal.bytes s => pyIntBytes s
  | _ => Option.none

/-- Python subscript `x[i]` on a reply value; `Option.none` models the
`IndexError` or `TypeError` raised otherwise. -/
def pyIndex : PyVal → Nat → Option PyVal
  | PyVal.list xs, i => xs[i]?
  | _, _ => Option.none

/-- Protocol or transport exception raised by the executor, opaque to this
core; only its identity matters for forwarding. -/
structure PyExc where
  msg : Bytes
  deriving DecidableEq

/-- Resolution of the executor's asynchronous result: `response.exception()`
is non-`None` exactly for `failure`, and `response.result()` is the raw
reply for `success`. -/
inductive ExecResult where
  | success (v : PyVal)
  | failure (e : PyExc)

/-- Final state of the caller-facing `TracebackFuture`: resolved with a
value, or failed with an exception. -/
inductive FutureState where
  | resolvedVal (v : PyVal)
  | failed (e : PyExc)

/-- Per-command response transform; `Option.none` models an exception raised
inside the transform itself. -/
abbrev Normalizer := PyVal → Option PyVal

/-- Shape shared by the `on_response` callbacks of `sadd`, `srem` and
`sscan`: `response.exception()` is checked first and forwarded via
`future.set_exception`; otherwise the transform is applied to
`response.result()` and the result set on the future. The outer
`Option.none` marks the callback itself raising. -/
def onResponse (norm : Normalizer) (response : ExecResult) : Option FutureState :=
  match response with
  | ExecResult.failure e => some (FutureState.failed e)
  | ExecResult.success v => (norm v).map FutureState.resolvedVal

/-- Client context as each call sees it: the pipeline mode flag
`self._pipeline`, read afresh on every call (it may toggle between calls). -/
structure ClientState where
  pipeline : Bool

/-- Outcome of one set-operation call, recording which collaborator of §6
received the command vector: `pipelined c n` models
`self._pipeline_add(c, n)` (registration with the pipeline accumulator,
returning immediately), `executed c n` models handing `c` to
`self._execute`, with `n` the attached response transform (`Option.none`
when no transform is attached and the raw reply surfaces). -/
inductive Dispatch where
  | pipelined (command : List Bytes) (norm : Option Normalizer)
  | executed (command : List Bytes) (norm : Option Normalizer)

/-- The command vector a dispatch carries. -/
def Dispatch.command : Dispatch → List Bytes
  | Dispatch.pipelined c _ => c
  | Dispatch.executed c _ => c

/-- The response transform a dispatch carries, if any. -/
def Dispatch.normOf : Dispatch → Option Normalizer
  | Dispatch.pipelined _ n => n
  | Dispatch.executed _ n => n

/-- Whether the call registered with the pipeline accumulator rather than
submitting to the executor. -/
def Dispatch.isPipelined : Dispatch → Bool
  | Dispatch.pipelined _ _ => true
  | Dispatch.executed _ _ => false

/-- Modelled from the spec: `_execute` is client-core code not under `src/`;
per the §6 contract it resolves once with either the raw reply or a failure.
So a direct-mode call that returned the executor future surfaces the reply
unchanged (identity transform), and one that attached an `on_response`
callback resolves the caller future through `onResponse`. -/
def Dispatch.directResult : Dispatch → ExecResult → Option FutureState
  | Dispatch.executed _ norm, r => onResponse (norm.getD fun v => some v) r
  | Dispatch.pipelined _ _, _ => Option.none

/-- Command vector of `sadd`: `[b'SADD', key] + list(members)`. -/
def saddCommand (key : Bytes) (members : List Bytes) : List Bytes :=
  [bSADD, key] ++ members

/-- The `_eval_response` closure of `sadd`: `True` when the reply equals
`len(members)`, else the reply unchanged. -/
def saddEval (members : List Bytes) (value : PyVal) : PyVal :=
  if pyEqInt value members.length then PyVal.bool true else value

/-- `sadd`'s `_eval_response` as a `Normalizer` (it raises nothing). -/
def saddNorm (members : List Bytes) : Normalizer := fun v => some (saddEval members v)

/-- The `on_response` closure of `sadd`. -/
def saddOnResponse (members : List Bytes) : ExecResult → Option FutureState :=
  onResponse (saddNorm members)

/-- The `sadd` operation: build the vector, then pipeline-register or
execute with `on_response` attached, per the current mode flag. -/
def sadd (st : ClientState) (key : Bytes) (members : List Bytes) : Dispatch :=
  if st.pipeline then Dispatch.pipelined (saddCommand key members) (some (saddNorm members))
  else Dispatch.executed (saddCommand key members) (some (saddNorm members))

/-- Command vector of `scard`: `[b'SCARD', key]`. -/
def scardCommand (key : Bytes) : List Bytes := [bSCARD, key]

/-- The `scard` operation: no transform is attached in either mode. -/
def scard (st : ClientState) (key : Bytes) : Dispatch :=
  if st.pipeline then Dispatch.pipelined (scardCommand key) Option.none
  else Dispatch.executed (scardCommand key) Option.none

/-- Command vector of `sdiff`: `[b'SDIFF'] + list(keys)`. -/
def sdiffCommand (keys : List Bytes) : List Bytes := [bSDIFF] ++ keys

/-- The `sdiff` operation: no transform is attached in either mode. -/
def sdiff (st : ClientState) (keys : List Bytes) : Dispatch :=
  if st.pipeline then Dispatch.pipelined (sdiffCommand keys) Option.none
  else Dispatch.executed (sdiffCommand keys) Option.none

/-- Command vector of `sdiffstore`: `[b'SDIFFSTORE', destination] + list(keys)`. -/
def sdiffstoreCommand (destination : Bytes) (keys : List Bytes) : List Bytes :=
  [bSDIFFSTORE, destination] ++ keys

/-- The `sdiffstore` operation: no transform is attached in either mode. -/
def sdiffstore (st : ClientState) (destination : Bytes) (keys : List Bytes) : Dispatch :=
  if st.pipeline then Dispatch.pipelined (sdiffstoreCommand destination keys) Option.none
  else Dispatch.executed (sdiffstoreCommand destination keys) Option.none

/-- Command vector of `sinter`: `[b'SINTER'] + list(keys)`. -/
def sinterCommand (keys : List Bytes) : List Bytes := [bSINTER] ++ keys

/-- The `sinter` operation: no transform is attached in either mode. -/
def sinter (st : ClientState) (keys : List Bytes) : Dispatch :=
  if st.pipeline then Dispatch.pipelined (sinterCommand keys) Option.none
  else Dispatch.executed (sinterCommand keys) Option.none

/-- Command vector of `sinterstore`: `[b'SINTERSTORE', destination] + list(keys)`. -/
def sinterstoreCommand (destination : Bytes) (keys : List Bytes) : List Bytes :=
  [bSINTERSTORE, destination] ++ keys

/-- The `sinterstore` operation: no transform is attached in either mode. -/
def sinterstore (st : ClientState) (destination : Bytes) (keys : List Bytes) : Dispatch :=
  if st.pipeline then Dispatch.pipelined (sinterstoreCommand destination keys) Option.none
  else Dispatch.executed (sinterstoreCommand destination keys) Option.none

/-- Command vector of `sismember`: `[b'SISMEMBER', key, member]`. -/
def sismemberCommand (key member : Bytes) : List Bytes := [bSISMEMBER, key, member]

/-- The `sismember` operation as written in `sets.py`: no transform is
attached in either mode, so the raw integer reply surfaces to the caller. -/
def sismember (st : ClientState) (key member : Bytes) : Dispatch :=
  if st.pipeline then Dispatch.pipelined (sismemberCommand key member) Option.none
  else Dispatch.executed (sismemberCommand key member) Option.none

/-- Command vector of `smembers`: `[b'SMEMBERS', key]`. -/
def smembersCommand (key : Bytes) : List Bytes := [bSMEMBERS, key]

/-- The `smembers` operation: no transform is attached in either mode. -/
def smembers (st : ClientState) (key : Bytes) : Dispatch :=
  if st.pipeline then Dispatch.pipelined (smembersCommand key) Option.none
  else Dispatch.executed (smembersCommand key) Option.none

/-- Modelled from the spec: the boolean coding applied by
`_execute_and_eval_int_resp` (client-core code not under `src/`); §4.2 codes
`SMOVE` replies as `0 ↦ False, 1 ↦ True`, i.e. `value == 1`. -/
def intRespNorm : Normalizer := fun v => some (PyVal.bool (pyEqInt v 1))

/-- Modelled from the spec: `_execute_and_eval_int_resp` is client-core code
not under `src/`; per §4.3 every call is pipeline-aware with the mode flag
checked per call, and per §4.2 it attaches the `value == 1` boolean coding. -/
def executeAndEvalIntResp (st : ClientState) (command : List Bytes) : Dispatch :=
  if st.pipeline then Dispatch.pipelined command (some intRespNorm)
  else Dispatch.executed command (some intRespNorm)

/-- The `smove` operation: dispatches `[b'SMOVE', source, destination,
member]` through `executeAndEvalIntResp`. -/
def smove (st : ClientState) (source destination member : Bytes) : Dispatch :=
  executeAndEvalIntResp st [bSMOVE, source, destination, member]

/-- Python truthiness of an optional int argument: `None` and `0` are falsy,
every other int truthy. -/
def truthyInt : Option Int → Bool
  | Option.none => false
  | some n => n != 0

/-- Python truthiness of an optional byte-string argument: `None` and `b''`
are falsy, non-empty byte strings truthy. -/
def truthyBytes : Option Bytes → Bool
  | Option.none => false
  | some b => b != []

/-- Command vector of `spop`: `[b'SPOP', key]`, with
`ascii(count).encode('ascii')` appended under `if count:`. -/
def spopCommand (key : Bytes) (count : Option Int) : List Bytes :=
  let command := [bSPOP, key]
  if truthyInt count then command ++ [intDecBytes (count.getD 0)] else command

/-- The `spop` operation: no transform is attached in either mode, so the
raw reply surfaces to the caller. -/
def spop (st : ClientState) (key : Bytes) (count : Option Int) : Dispatch :=
  if st.pipeline then Dispatch.pipelined (spopCommand key count) Option.none
  else Dispatch.executed (spopCommand key count) Option.none

/-- Command vector of `srandmember`: `[b'SRANDMEMBER', key]`, with
`ascii(count).encode('ascii')` appended under `if count:`. -/
def srandmemberCommand (key : Bytes) (count : Option Int) : List Bytes :=
  let command := [bSRANDMEMBER, key]
  if truthyInt count then command ++ [intDecBytes (count.getD 0)] else command

/-- The `srandmember` operation: no transform is attached in either mode. -/
def srandmember (st : ClientState) (key : Bytes) (count : Option Int) : Dispatch :=
  if st.pipeline then Dispatch.pipelined (srandmemberCommand key count) Option.none
  else Dispatch.executed (srandmemberCommand key count) Option.none

/-- Command vector of `srem`: `[b'SREM', key] + list(members)`. -/
def sremCommand (key : Bytes) (members : List Bytes) : List Bytes :=
  [bSREM, key] ++ members

/-- The `_eval_response` closure of `srem`: `True` when the reply equals
`len(members)`, else the reply unchanged. -/
def sremEval (members : List Bytes) (value : PyVal) : PyVal :=
  if pyEqInt value members.length then PyVal.bool true else value

/-- `srem`'s `_eval_response` as a `Normalizer` (it raises nothing). -/
def sremNorm (members : List Bytes) : Normalizer := fun v => some (sremEval members v)

/-- The `on_response` closure of `srem`. -/
def sremOnResponse (members : List Bytes) : ExecResult → Option FutureState :=
  onResponse (sremNorm members)

/-- The `srem` operation: build the vector, then pipeline-register or
execute with `on_response` attached, per the current mode flag. -/
def srem (st : ClientState) (key : Bytes) (members : List Bytes) : Dispatch :=
  if st.pipeline then Dispatch.pipelined (sremCommand key members) (some (sremNorm members))
  else Dispatch.executed (sremCommand key members) (some (sremNorm members))

/-- The `_format_response` closure of `sscan`:
`return int(value[0]), value[1]`, the result tuple as a `PyVal.list`;
`Option.none` models an exception raised while indexing or parsing. -/
def sscanFormatResponse : Normalizer := fun value =>
  match pyIndex value 0, pyIndex value 1 with
  | some c, some ms =>
    match pyToInt c with
    | some n => some (PyVal.list [PyVal.int n, ms])
    | Option.none => Option.none
  | _, _ => Option.none

/-- The `on_response` closure of `sscan`. -/
def sscanOnResponse : ExecResult → Option FutureState :=
  onResponse sscanFormatResponse

/-- Command vector of `sscan`: `[b'SSCAN', key, ascii(cursor)]`, then
`[b'MATCH', pattern]` under `if pattern:`, then `[b'COUNT', ascii(count)]`
under `if count:`. -/
def sscanCommand (key : Bytes) (cursor : Int) (pattern : Option Bytes)
    (count : Option Int) : List Bytes :=
  let command := [bSSCAN, key, intDecBytes cursor]
  let command := if truthyBytes pattern then command ++ [bMATCH, pattern.getD []] else command
  if truthyInt count then command ++ [bCOUNT, intDecBytes (count.getD 0)] else command

/-- The `sscan` operation: build the vector, then pipeline-register or
execute with `on_response` attached, per the current mode flag. -/
def sscan (st : ClientState) (key : Bytes) (cursor : Int) (pattern : Option Bytes)
    (count : Option Int) : Dispatch :=
  if st.pipeline then
    Dispatch.pipelined (sscanCommand key cursor pattern count) (some sscanFormatResponse)
  else Dispatch.executed (sscanCommand key cursor pattern count) (some sscanFormatResponse)

/-- Command vector of `sunion`: `[b'SUNION'] + list(keys)`. -/
def sunionCommand (keys : List Bytes) : List Bytes := [bSUNION] ++ keys

/-- The `sunion` operation: no transform is attached in either mode. -/
def sunion (st : ClientState) (keys : List Bytes) : Dispatch :=
  if st.pipeline then Dispatch.pipelined (sunionCommand keys) Option.none
  else Dispatch.executed (sunionCommand keys) Option.none

/-- Command vector of `sunionstore`: `[b'SUNIONSTORE', destination] + list(keys)`. -/
def sunionstoreCommand (destination : Bytes) (keys : List Bytes) : List Bytes :=
  [bSUNIONSTORE, destination] ++ keys

/-- The `sunionstore` operation: no transform is attached in either mode. -/
def sunionstore (st : ClientState) (destination : Bytes) (keys : List Bytes) : Dispatch :=
  if st.pipeline then Dispatch.pipelined (sunionstoreCommand destination keys) Option.none
  else Dispatch.executed (sunionstoreCommand destination keys) Option.none

/-- Whether a future outcome is a resolution with a 2-element list value. -/
def resolvedLen2List : Option FutureState → Bool
  | some (FutureState.resolvedVal (PyVal.list xs)) => xs.length == 2
  | _ => false

/-- Digit accumulation over an appended byte list runs the prefix first. -/
theorem parseDigitsAux_append (xs ys : Bytes) (acc : Nat) :
    parseDigitsAux (xs ++ ys) acc =
      (parseDigitsAux xs acc).bind fun a => parseDigitsAux ys a := by
  induction xs generalizing acc with
  | nil => simp [parseDigitsAux]
  | cons c cs ih =>
    simp only [List.cons_append, parseDigitsAux]
    cases h : digitVal c with
    | none => simp
    | some d => simp [ih]

/-- Every byte produced by `natDecAux` is an ASCII digit byte, at least 48. -/
theorem natDecAux_mem_ge (fuel : Nat) : ∀ n, ∀ b ∈ natDecAux fuel n, 48 ≤ b := by
  induction fuel with
  | zero => intro n b hb; simp [natDecAux] at hb
  | succ fuel ih =>
    intro n b hb
    simp only [natDecAux] at hb
    by_cases h : n = 0
    · simp [h] at hb
    · rw [if_neg h] at hb
      rcases List.mem_append.mp hb with hb | hb
      · exact ih _ b hb
      · have : b = n % 10 + 48 := List.mem_singleton.mp hb
        omega

/-- With enough fuel, `natDecAux` is non-empty on a positive input. -/
theorem natDecAux_ne_nil (fuel n : Nat) (hn : n ≠ 0) (hf : n ≤ fuel) :
    natDecAux fuel n ≠ [] := by
  cases fuel with
  | zero => omega
  | succ fuel =>
    simp only [natDecAux, if_neg hn]
    simp

/-- Parsing the digit bytes of `n` (built with fuel at least `n`) extends
the accumulator by the digit count and adds `n`. -/
theorem parse_natDecAux (fuel : Nat) : ∀ n acc, n ≤ fuel →
    parseDigitsAux (natDecAux fuel n) acc =
      some (acc * 10 ^ (natDecAux fuel n).length + n) := by
  induction fuel with
  | zero =>
    intro n acc hn
    have hn0 : n = 0 := Nat.le_zero.mp hn
    subst hn0
    simp [natDecAux, parseDigitsAux]
  | succ fuel ih =>
    intro n acc hn
    by_cases h : n = 0
    · subst h
      simp [natDecAux, parseDigitsAux]
    · have hdiv : n / 10 ≤ fuel := by omega
      simp only [natDecAux, if_neg h]
      rw [parseDigitsAux_append, ih (n / 10) acc hdiv]
      have hd : digitVal (n % 10 + 48) = some (n % 10) := by
        simp only [digitVal]
        rw [if_pos (by omega)]
        congr 1
      simp only [Option.some_bind, parseDigitsAux, hd, List.length_append,
        List.length_singleton]
      congr 1
      rw [pow_succ]
      have hdm : n / 10 * 10 + n % 10 = n := by omega
      generalize (10 : Nat) ^ (natDecAux fuel (n / 10)).length = P
      calc (acc * P + n / 10) * 10 + n % 10
          = acc * (P * 10) + (n / 10 * 10 + n % 10) := by ring
        _ = acc * (P * 10) + n := by rw [hdm]

/-- Round trip: Python `int()` of the ASCII decimal bytes of `n` is `n`. -/
theorem pyIntBytes_natDecBytes (n : Nat) : pyIntBytes (natDecBytes n) = some (n : Int) := by
  by_cases h : n = 0
  · subst h
    decide
  · have hne := natDecAux_ne_nil n n h le_rfl
    have hge := natDecAux_mem_ge n n
    have hparse := parse_natDecAux n n 0 le_rfl
    rw [natDecBytes, if_neg h]
    cases hcons : natDecAux n n with
    | nil => exact absurd hcons hne
    | cons c cs =>
      have hc : 48 ≤ c := hge c (by rw [hcons]; exact List.mem_cons_self c cs)
      rw [hcons] at hparse
      simp only [pyIntBytes]
      rw [if_neg (by omega : ¬ c = 45), hparse]
      simp

/-- C1: for a request of `N = len(members)` members, the `SADD` and `SREM`
response transforms send an integer reply equal to `N` to `True`, and any
integer reply `m` different from `N` to the raw integer `m` unchanged. -/
theorem sadd_srem_reply_normalization (members : List Bytes) (m : Int) :
    (saddEval members (PyVal.int members.length) = PyVal.bool true ∧
     sremEval members (PyVal.int members.length) = PyVal.bool true) ∧
    (m ≠ (members.length : Int) →
      saddEval members (PyVal.int m) = PyVal.int m ∧
      sremEval members (PyVal.int m) = PyVal.int m) := by
  constructor
  · constructor <;> simp [saddEval, sremEval, pyEqInt]
  · intro h
    constructor <;> simp [saddEval, sremEval, pyEqInt, h]

/-- Witness for C1: two requested members, server reply 5 differs from 2 and
is returned as the raw integer 5. -/
theorem sadd_srem_reply_normalization_witness :
    (5 : Int) ≠ (([[97], [98]] : List Bytes).length : Int) ∧
    saddEval [[97], [98]] (PyVal.int 5) = PyVal.int 5 :=
  ⟨by decide, ((sadd_srem_reply_normalization [[97], [98]] 5).2 (by decide)).1⟩

/-- C2: whenever the pipeline flag reads true at the time of the call, every
exposed set operation registers its (command vector, transform) pair with
the pipeline accumulator and submits nothing to the executor; the flag `p`
is consulted on each call, so each call's dispatch follows that call's
flag. -/
theorem pipeline_mode_short_circuits (p : Bool) (key dest src mem : Bytes)
    (members keys : List Bytes) (cursor : Int) (pat : Option Bytes) (cnt : Option Int) :
    (sadd ⟨p⟩ key members =
      if p then Dispatch.pipelined (saddCommand key members) (some (saddNorm members))
      else Dispatch.executed (saddCommand key members) (some (saddNorm members))) ∧
    (scard ⟨p⟩ key =
      if p then Dispatch.pipelined (scardCommand key) Option.none
      else Dispatch.executed (scardCommand key) Option.none) ∧
    (sdiff ⟨p⟩ keys =
      if p then Dispatch.pipelined (sdiffCommand keys) Option.none
      else Dispatch.executed (sdiffCommand keys) Option.none) ∧
    (sdiffstore ⟨p⟩ dest keys =
      if p then Dispatch.pipelined (sdiffstoreCommand dest keys) Option.none
      else Dispatch.executed (sdiffstoreCommand dest keys) Option.none) ∧
    (sinter ⟨p⟩ keys =
      if p then Dispatch.pipelined (sinterCommand keys) Option.none
      else Dispatch.executed (sinterCommand keys) Option.none) ∧
    (sinterstore ⟨p⟩ dest keys =
      if p then Dispatch.pipelined (sinterstoreCommand dest keys) Option.none
      else Dispatch.executed (sinterstoreCommand dest keys) Option.none) ∧
    (sismember ⟨p⟩ key mem =
      if p then Dispatch.pipelined (sismemberCommand key mem) Option.none
      else Dispatch.executed (sismemberCommand key mem) Option.none) ∧
    (smembers ⟨p⟩ key =
      if p then Dispatch.pipelined (smembersCommand key) Option.none
      else Dispatch.executed (smembersCommand key) Option.none) ∧
    (smove ⟨p⟩ src dest mem =
      if p then Dispatch.pipelined [bSMOVE, src, dest, mem] (some intRespNorm)
      else Dispatch.executed [bSMOVE, src, dest, mem] (some intRespNorm)) ∧
    (spop ⟨p⟩ key cnt =
      if p then Dispatch.pipelined (spopCommand key cnt) Option.none
      else Dispatch.executed (spopCommand key cnt) Option.none) ∧
    (srandmember ⟨p⟩ key cnt =
      if p then Dispatch.pipelined (srandmemberCommand key cnt) Option.none
      else Dispatch.executed (srandmemberCommand key cnt) Option.none) ∧
    (srem ⟨p⟩ key members =
      if p then Dispatch.pipelined (sremCommand key members) (some (sremNorm members))
      else Dispatch.executed (sremCommand key members) (some (sremNorm members))) ∧
    (sscan ⟨p⟩ key cursor pat cnt =
      if p then Dispatch.pipelined (sscanCommand key cursor pat cnt) (some sscanFormatResponse)
      else Dispatch.executed (sscanCommand key cursor pat cnt) (some sscanFormatResponse)) ∧
    (sunion ⟨p⟩ keys =
      if p then Dispatch.pipelined (sunionCommand keys) Option.none
      else Dispatch.executed (sunionCommand keys) Option.none) ∧
    (sunionstore ⟨p⟩ dest keys =
      if p then Dispatch.pipelined (sunionstoreCommand dest keys) Option.none
      else Dispatch.executed (sunionstoreCommand dest keys) Option.none) := by
  cases p <;>
    exact ⟨rfl, rfl, rfl, rfl, rfl, rfl, rfl, rfl, rfl, rfl, rfl, rfl, rfl, rfl, rfl⟩

/-- C3: `scard` passes the integer reply through unchanged as claimed, but
`sismember` also attaches no transform, so the integer reply 1 reaches the
caller as the raw integer 1 rather than as the boolean `True` promised by
its own docstring (`:rtype: bool`). -/
theorem sismember_reply_stays_raw_integer :
    (sismember ⟨false⟩ [107] [109]).directResult (ExecResult.success (PyVal.int 1))
      = some (FutureState.resolvedVal (PyVal.int 1)) ∧
    (sismember ⟨false⟩ [107] [109]).directResult (ExecResult.success (PyVal.int 1))
      ≠ some (FutureState.resolvedVal (PyVal.bool true)) ∧
    (scard ⟨false⟩ [107]).directResult (ExecResult.success (PyVal.int 3))
      = some (FutureState.resolvedVal (PyVal.int 3)) := by
  refine ⟨rfl, ?_, rfl⟩
  intro h
  simp [sismember, Dispatch.directResult, onResponse] at h

/-- C4: for direct-mode `sadd`, `srem` and `sscan`, the `on_response`
continuation fails the caller's future with the executor's exception
without consulting the transform (any two transforms give the same failed
outcome), and on success resolves it with the transform applied to the raw
value. -/
theorem direct_mode_error_propagation (e : PyExc) (members : List Bytes)
    (v : PyVal) (n1 n2 : Normalizer) :
    (onResponse n1 (ExecResult.failure e) = some (FutureState.failed e)) ∧
    (onResponse n1 (ExecResult.failure e) = onResponse n2 (ExecResult.failure e)) ∧
    (saddOnResponse members (ExecResult.failure e) = some (FutureState.failed e)) ∧
    (sremOnResponse members (ExecResult.failure e) = some (FutureState.failed e)) ∧
    (sscanOnResponse (ExecResult.failure e) = some (FutureState.failed e)) ∧
    (saddOnResponse members (ExecResult.success v)
      = some (FutureState.resolvedVal (saddEval members v))) ∧
    (sremOnResponse members (ExecResult.success v)
      = some (FutureState.resolvedVal (sremEval members v))) ∧
    (sscanOnResponse (ExecResult.success v)
      = (sscanFormatResponse v).map FutureState.resolvedVal) :=
  ⟨rfl, rfl, rfl, rfl, rfl, rfl, rfl, rfl⟩

/-- C5 counterexample: `sscan` with key `b'k'`, cursor 0, no pattern and the
supplied count `0` builds `[b'SSCAN', b'k', b'0']` with no `COUNT` pair,
although a count argument was supplied. -/
theorem sscan_supplied_zero_count_dropped :
    sscanCommand [107] 0 Option.none (some 0) = [bSSCAN, [107], [48]] ∧
    sscanCommand [107] 0 Option.none (some 0)
      ≠ [bSSCAN, [107], [48], bCOUNT, [48]] := by
  have h1 : sscanCommand [107] 0 Option.none (some 0) = [bSSCAN, [107], [48]] := rfl
  refine ⟨h1, ?_⟩
  rw [h1]
  intro h
  have hlen := congrArg List.length h
  simp at hlen

/-- C5 amended: the `sscan` command vector is `[b'SSCAN', key,
ascii(cursor)]`, followed by the pair `[b'MATCH', pattern]` exactly when a
non-empty pattern is supplied, followed by the pair `[b'COUNT',
ascii(count)]` exactly when a nonzero count is supplied, in that order. -/
theorem sscan_command_layout (key : Bytes) (cursor : Int) (pattern : Option Bytes)
    (count : Option Int) :
    sscanCommand key cursor pattern count =
      [bSSCAN, key, intDecBytes cursor] ++
        (match pattern with
         | some pt => if pt = [] then [] else [bMATCH, pt]
         | Option.none => []) ++
        (match count with
         | some c => if c = 0 then [] else [bCOUNT, intDecBytes c]
         | Option.none => []) := by
  cases pattern with
  | none =>
    cases count with
    | none => simp [sscanCommand, truthyBytes, truthyInt]
    | some c =>
      by_cases hc : c = 0 <;> simp [sscanCommand, truthyBytes, truthyInt, hc]
  | some pt =>
    cases count with
    | none =>
      by_cases hp : pt = [] <;> simp [sscanCommand, truthyBytes, truthyInt, hp]
    | some c =>
      by_cases hp : pt = [] <;> by_cases hc : c = 0 <;>
        simp [sscanCommand, truthyBytes, truthyInt, hp, hc]

/-- C6: on a reply pairing the ASCII decimal cursor string of any
`n < 2^64` with a member list, the `sscan` transform returns the cursor
parsed as the integer `n` and the member list unchanged. -/
theorem sscan_cursor_parse (n : Nat) (ms : List PyVal) (_bound : n < 2 ^ 64) :
    sscanFormatResponse (PyVal.list [PyVal.bytes (natDecBytes n), PyVal.list ms])
      = some (PyVal.list [PyVal.int n, PyVal.list ms]) := by
  simp [sscanFormatResponse, pyIndex, pyToInt, pyIntBytes_natDecBytes]

/-- Witness for C6 at cursor 42 and a one-member list. -/
theorem sscan_cursor_parse_witness :
    42 < 2 ^ 64 ∧
    sscanFormatResponse (PyVal.list [PyVal.bytes (natDecBytes 42),
        PyVal.list [PyVal.bytes [97]]])
      = some (PyVal.list [PyVal.int 42, PyVal.list [PyVal.bytes [97]]]) :=
  ⟨by norm_num, sscan_cursor_parse 42 [PyVal.bytes [97]] (by norm_num)⟩

/-- C7 counterexample: `spop` called with `count = 2` attaches no transform,
so when the raw reply is the single bulk string `b'a'` the caller receives
that single bulk value, not a 2-element sequence, although `count` was
supplied. -/
theorem spop_count_two_single_value :
    (spop ⟨false⟩ [107] (some 2)).directResult (ExecResult.success (PyVal.bytes [97]))
      = some (FutureState.resolvedVal (PyVal.bytes [97])) ∧
    resolvedLen2List ((spop ⟨false⟩ [107] (some 2)).directResult
      (ExecResult.success (PyVal.bytes [97]))) = false :=
  ⟨rfl, rfl⟩

/-- C7 amended: `spop` attaches no transform in either mode, so its
direct-mode result is the raw server reply unchanged; the result's shape
(single bulk value versus sequence) follows the reply alone, whatever the
call-time `count`. -/
theorem spop_result_is_raw_reply (st : ClientState) (key : Bytes)
    (count : Option Int) (reply : PyVal) :
    (spop st key count).normOf = Option.none ∧
    (spop ⟨false⟩ key count).directResult (ExecResult.success reply)
      = some (FutureState.resolvedVal reply) := by
  obtain ⟨p⟩ := st
  refine ⟨?_, rfl⟩
  cases p <;> rfl

/-- C8: each variadic operation called with zero variadic arguments builds
the vector of just the command name and any fixed leading keys and forwards
exactly that vector to the chosen collaborator in either mode; the
operations are total, raising no local validation error. -/
theorem variadic_zero_args_forwarded (st : ClientState) (key dest : Bytes) :
    (sadd st key []).command = [bSADD, key] ∧
    (srem st key []).command = [bSREM, key] ∧
    (sdiff st []).command = [bSDIFF] ∧
    (sdiffstore st dest []).command = [bSDIFFSTORE, dest] ∧
    (sinter st []).command = [bSINTER] ∧
    (sinterstore st dest []).command = [bSINTERSTORE, dest] ∧
    (sunion st []).command = [bSUNION] ∧
    (sunionstore st dest []).command = [bSUNIONSTORE, dest] := by
  obtain ⟨p⟩ := st
  cases p <;> exact ⟨rfl, rfl, rfl, rfl, rfl, rfl, rfl, rfl⟩

/-- C9: `smove` carries the boolean coding transform, which sends the
integer reply 1 to `True` and 0 to `False`, for every source, destination,
member and mode. -/
theorem smove_boolean_coding (st : ClientState) (src dst mem : Bytes) :
    (smove st src dst mem).normOf = some intRespNorm ∧
    intRespNorm (PyVal.int 1) = some (PyVal.bool true) ∧
    intRespNorm (PyVal.int 0) = some (PyVal.bool false) := by
  obtain ⟨p⟩ := st
  refine ⟨?_, rfl, rfl⟩
  cases p <;> rfl

/-- C10: supplying a falsy optional argument (count `0` to `spop`,
`srandmember` or `sscan`, empty pattern to `sscan`) builds exactly the
command vector of the corresponding omitted-argument call. -/
theorem falsy_optionals_match_omitted (key : Bytes) (cursor : Int)
    (pattern : Option Bytes) (count : Option Int) :
    spopCommand key (some 0) = spopCommand key Option.none ∧
    srandmemberCommand key (some 0) = srandmemberCommand key Option.none ∧
    sscanCommand key cursor (some []) count = sscanCommand key cursor Option.none count ∧
    sscanCommand key cursor pattern (some 0) = sscanCommand key cursor pattern Option.none := by
  refine ⟨rfl, rfl, rfl, ?_⟩
  simp [sscanCommand, truthyInt]

end Tredis

